import Mathlib

/-!
A shallow embedding of the zoom-lifecycle component in `src/source/Base.tsx`
of react-medium-image-zoom.  The component is modelled as an explicit state
machine: React state variables become fields of `BaseState`, the props and
collaborators become a `Config`, the event handlers become functions
producing a new state together with the list of values reported through the
`onZoomChange` callback, and browser / owner events become an `Event` type
consumed by `step`.
-/

namespace RMIZ

/-- ModalState enum (Base.tsx lines 28–33). -/
inductive ModalState
  | LOADED
  | LOADING
  | UNLOADED
  | UNLOADING
deriving DecidableEq, Repr

/-- Callbacks registered with `addEventListener('transitionend', …, { once: true })`
on the modal image: the listener body in `zoom` (Base.tsx 181–187) or the one
in `unzoom` (Base.tsx 194–202). -/
inductive PendingTE
  | zoomDone
  | unzoomDone
deriving DecidableEq, Repr

/-- Static configuration of one component instance: whether the Target
Resolver found a zoomable element (Base.tsx 73–77), whether the modal image
ref is non-null (Base.tsx 303–326), whether the `scrollableEl` prop is the
window (Base.tsx 54), and whether `zoomImg?.src` is set (Base.tsx 89–91). -/
structure Config where
  imgElPresent : Bool
  modalImgRefPresent : Bool
  scrollableElIsWindow : Bool
  hasZoomImgSrc : Bool
deriving DecidableEq, Repr

/-- The React state of `Base` (Base.tsx 58–69) together with the externally
visible resources it manipulates: the once-listeners registered for
`transitionend` on the modal image, the scroll / resize / click listeners,
the open state of the dialog, and the number of in-flight `zoomImg`
decodes. -/
structure BaseState where
  modalState : ModalState
  isZoomImgLoaded : Bool
  forceUpdateVal : Nat
  isZoomed : Bool
  prevIsZoomed : Option Bool
  pending : List PendingTE
  scrollListenerAttached : Bool
  resizeListenerAttached : Bool
  clickListenerAttached : Bool
  dialogOpen : Bool
  pendingDecodes : Nat
  mounted : Bool
deriving DecidableEq, Repr

/-- Initial state after mount: modal state UNLOADED, zoom-img not loaded,
force-update counter 0 (Base.tsx 60–62), the click listener attached to the
target exactly when one was resolved (Base.tsx 243–249).  Modelled from the
spec: `usePrevious` (src/source/hooks.ts is absent from the sources) yields
the toggle's value at the previous render, with no value before the first
render, matching the false→true / true→false edge detection of §4.4. -/
def initState (cfg : Config) : BaseState :=
  { modalState := ModalState.UNLOADED
    isZoomImgLoaded := false
    forceUpdateVal := 0
    isZoomed := false
    prevIsZoomed := none
    pending := []
    scrollListenerAttached := false
    resizeListenerAttached := false
    clickListenerAttached := cfg.imgElPresent
    dialogOpen := false
    pendingDecodes := 0
    mounted := true }

/-- handleOpen (Base.tsx 139): report `true` through `onZoomChange`. -/
def handleOpen : List Bool := [true]

/-- handleClose (Base.tsx 140): report `false` through `onZoomChange`. -/
def handleClose : List Bool := [false]

/-- Keyboard event data seen by the dialog keydown handler. -/
structure KeyEvt where
  key : String
  keyCode : Nat
deriving DecidableEq, Repr

/-- handleDialogKeyDown (Base.tsx 143–149): on Escape (`e.key === 'Escape' ||
e.keyCode === 27`), prevent the native dialog dismissal and run
`handleClose`.  Returns (defaultPrevented, reported values). -/
def handleDialogKeyDown (e : KeyEvt) : Bool × List Bool :=
  if e.key = "Escape" ∨ e.keyCode = 27 then (true, handleClose) else (false, [])

/-- handleScroll (Base.tsx 152–155): bump the force-update counter and
close. -/
def handleScroll (s : BaseState) : BaseState × List Bool :=
  ({ s with forceUpdateVal := s.forceUpdateVal + 1 }, handleClose)

/-- handleResize (Base.tsx 158–160): bump the force-update counter. -/
def handleResize (s : BaseState) : BaseState :=
  { s with forceUpdateVal := s.forceUpdateVal + 1 }

/-- loadZoomImg (Base.tsx 162–173): if `zoomImg?.src` is set, construct a
probe image and start decoding it; the decode resolving later is the
`Event.decodeResolved` event. -/
def loadZoomImg (cfg : Config) (s : BaseState) : BaseState :=
  if cfg.hasZoomImgSrc then { s with pendingDecodes := s.pendingDecodes + 1 } else s

/-- zoom (Base.tsx 176–188): show the dialog, enter LOADING, start the
zoom-img load, and register a once listener for `transitionend` on the modal
image (when the `refModalImg` ref is non-null, per the optional chaining). -/
def zoom (cfg : Config) (s : BaseState) : BaseState :=
  { loadZoomImg cfg s with
      dialogOpen := true
      modalState := ModalState.LOADING
      pending := s.pending ++ (if cfg.modalImgRefPresent then [PendingTE.zoomDone] else []) }

/-- unzoom (Base.tsx 191–203): enter UNLOADING and register a once listener
for `transitionend` on the modal image (when the ref is non-null). -/
def unzoom (cfg : Config) (s : BaseState) : BaseState :=
  { s with
      modalState := ModalState.UNLOADING
      pending := s.pending ++ (if cfg.modalImgRefPresent then [PendingTE.unzoomDone] else []) }

/-- Body of the once listener registered by `zoom` (Base.tsx 181–187): set
LOADED, attach the scroll listener on `scrollableEl` and the resize listener
on `window`. -/
def runZoomDone (s : BaseState) : BaseState :=
  { s with
      modalState := ModalState.LOADED
      scrollListenerAttached := true
      resizeListenerAttached := true }

/-- Body of the once listener registered by `unzoom` (Base.tsx 194–202):
remove the resize listener from `window` and the scroll listener from
`scrollableEl`, set UNLOADED, reset the force-update counter, close the
dialog. -/
def runUnzoomDone (s : BaseState) : BaseState :=
  { s with
      resizeListenerAttached := false
      scrollListenerAttached := false
      modalState := ModalState.UNLOADED
      forceUpdateVal := 0
      dialogOpen := false }

/-- Dispatch one registered once-listener body. -/
def applyTE (s : BaseState) (p : PendingTE) : BaseState :=
  match p with
  | PendingTE.zoomDone => runZoomDone s
  | PendingTE.unzoomDone => runUnzoomDone s

/-- A `transitionend` event on the modal image fires every registered once
listener in registration order and deregisters all of them; each body runs in
a `setTimeout(…, 0)`, hence sequentially after the event. -/
def runPending (s : BaseState) : BaseState :=
  List.foldl applyTE { s with pending := [] } s.pending

/-- Action selected by the isZoomed edge effect. -/
inductive EffectAction
  | zoomAct
  | unzoomAct
  | noAct
deriving DecidableEq, Repr

/-- Condition of the isZoomed edge effect (Base.tsx 234–240):
`!prevIsZoomed && isZoomed` selects zoom, `prevIsZoomed && !isZoomed` selects
unzoom (an absent previous value is falsy). -/
def zoomEffectAction (prev : Option Bool) (cur : Bool) : EffectAction :=
  match prev.getD false, cur with
  | false, true => EffectAction.zoomAct
  | true, false => EffectAction.unzoomAct
  | _, _ => EffectAction.noAct

/-- The isZoomed edge effect (Base.tsx 234–240) followed by the `usePrevious`
update: run `zoom` on a false→true edge, `unzoom` on a true→false edge, and
record the rendered value as the new previous value. -/
def zoomEffect (cfg : Config) (s : BaseState) : BaseState :=
  let s2 :=
    match zoomEffectAction s.prevIsZoomed s.isZoomed with
    | EffectAction.zoomAct => zoom cfg s
    | EffectAction.unzoomAct => unzoom cfg s
    | EffectAction.noAct => s
  { s2 with prevIsZoomed := some s.isZoomed }

/-- Browser / owner events driving the component.  `setIsZoomed` is a render
with a new value of the `isZoomed` prop; `scroll` is a scroll event on
`scrollableEl`; `resize` a window resize; `clickTarget` a click on the
resolved target element; `clickZoomBtn` / `clickUnzoomBtn` / `clickOverlay`
clicks on the zoom button (Base.tsx 282–289), the unzoom button (327–334) and
the dialog surface (296); `dialogKey` a keydown on the dialog;
`decodeResolved` the resolution of one in-flight zoom-img decode; `unmount`
the component teardown running every effect cleanup (Base.tsx 246–248 and
252–257). -/
inductive Event
  | setIsZoomed (b : Bool)
  | transitionEnd
  | scroll
  | resize
  | clickTarget
  | clickZoomBtn
  | clickUnzoomBtn
  | clickOverlay
  | dialogKey (e : KeyEvt)
  | decodeResolved
  | unmount
deriving DecidableEq, Repr

/-- One step of the component: consume an event, produce the next state and
the values reported through `onZoomChange` during the step.  The teardown
branch mirrors Base.tsx 252–257 exactly: the cleanup removes the resize and
scroll handlers from `window`, so the scroll listener comes off only when
`scrollableEl` is the window. -/
def step (cfg : Config) (s : BaseState) : Event → BaseState × List Bool
  | Event.setIsZoomed b => (zoomEffect cfg { s with isZoomed := b }, [])
  | Event.transitionEnd => (runPending s, [])
  | Event.scroll => if s.scrollListenerAttached then handleScroll s else (s, [])
  | Event.resize => if s.resizeListenerAttached then (handleResize s, []) else (s, [])
  | Event.clickTarget => if s.clickListenerAttached then (s, handleOpen) else (s, [])
  | Event.clickZoomBtn => (s, handleOpen)
  | Event.clickUnzoomBtn => (s, handleClose)
  | Event.clickOverlay => (s, handleClose)
  | Event.dialogKey e => (s, (handleDialogKeyDown e).2)
  | Event.decodeResolved =>
      if s.pendingDecodes = 0 then (s, [])
      else ({ s with isZoomImgLoaded := true, pendingDecodes := s.pendingDecodes - 1 }, [])
  | Event.unmount =>
      ({ s with
          mounted := false
          resizeListenerAttached := false
          scrollListenerAttached :=
            if cfg.scrollableElIsWindow then false else s.scrollListenerAttached
          clickListenerAttached := false }, [])

/-- States visited after the start state of a run. -/
def statesFrom (cfg : Config) (s : BaseState) : List Event → List BaseState
  | [] => []
  | e :: es => (step cfg s e).1 :: statesFrom cfg (step cfg s e).1 es

/-- All states of a run, the start state included. -/
def states (cfg : Config) (s : BaseState) (es : List Event) : List BaseState :=
  s :: statesFrom cfg s es

/-- Final state and concatenated reported values of a run. -/
def run (cfg : Config) (s : BaseState) : List Event → BaseState × List Bool
  | [] => (s, [])
  | e :: es =>
      let r := step cfg s e
      let r2 := run cfg r.1 es
      (r2.1, r.2 ++ r2.2)

/-- The documented lifecycle cycle
Unloaded→Loading→Loaded→Unloading→Unloaded. -/
def isCycleEdge : ModalState → ModalState → Bool
  | ModalState.UNLOADED, ModalState.LOADING => true
  | ModalState.LOADING, ModalState.LOADED => true
  | ModalState.LOADED, ModalState.UNLOADING => true
  | ModalState.UNLOADING, ModalState.UNLOADED => true
  | _, _ => false

/-- Every adjacent pair of the list is either equal or a cycle edge. -/
def cycleRespecting : List ModalState → Bool
  | a :: b :: rest => (decide (a = b) || isCycleEdge a b) && cycleRespecting (b :: rest)
  | _ => true

/-- Pending once-listeners compatible with the current modal state in a
reversal-free run. -/
def pendingOK (ms : ModalState) (l : List PendingTE) : Bool :=
  decide (l = []
    ∨ (ms = ModalState.LOADING ∧ l = [PendingTE.zoomDone])
    ∨ (ms = ModalState.UNLOADING ∧ l = [PendingTE.unzoomDone]))

/-- An event is reversal-free in state `s`: the toggle only requests zoom
from UNLOADED and unzoom from LOADED. -/
def disciplinedEvent (s : BaseState) : Event → Bool
  | Event.setIsZoomed b =>
      match zoomEffectAction s.prevIsZoomed b with
      | EffectAction.zoomAct => decide (s.modalState = ModalState.UNLOADED)
      | EffectAction.unzoomAct => decide (s.modalState = ModalState.LOADED)
      | EffectAction.noAct => true
  | _ => true

/-- A reversal-free run from `s`. -/
def disciplinedFrom (cfg : Config) (s : BaseState) : List Event → Bool
  | [] => true
  | e :: es => disciplinedEvent s e && disciplinedFrom cfg (step cfg s e).1 es

/-- styleContent (Base.tsx 99–101): content visibility by modal state. -/
def styleContentVisibility (ms : ModalState) : String :=
  if ms = ModalState.UNLOADED then "visible" else "hidden"

/-- dataOverlayState (Base.tsx 131–134): overlay visibility by modal state. -/
def dataOverlayState (ms : ModalState) : String :=
  if ms = ModalState.UNLOADED ∨ ms = ModalState.UNLOADING then "hidden" else "visible"

/-- Source attributes of an img element; `none` is an absent attribute. -/
structure ImgAttrs where
  src : Option String
  srcSet : Option String
  sizes : Option String
deriving DecidableEq, Repr

/-- Attribute record with every key absent. -/
def emptyAttrs : ImgAttrs := { src := none, srcSet := none, sizes := none }

/-- JSX spread of one attribute: a key present in `over` overrides the base
attribute. -/
def pickAttr (base over : Option String) : Option String :=
  match over with
  | some v => some v
  | none => base

/-- JSX spread of a whole attribute record over base attributes. -/
def spreadOver (base over : ImgAttrs) : ImgAttrs :=
  { src := pickAttr base.src over.src
    srcSet := pickAttr base.srcSet over.srcSet
    sizes := pickAttr base.sizes over.sizes }

/-- Attributes of the rendered modal img (Base.tsx 303–316): the original
target attributes, overridden by `{...zoomImg}` exactly when
`isZoomImgLoaded && modalState === ModalState.LOADED`; spreading an absent
`zoomImg` spreads nothing. -/
def modalImgAttrs (orig : ImgAttrs) (zoomImg : Option ImgAttrs) (s : BaseState) : ImgAttrs :=
  spreadOver orig
    (if s.isZoomImgLoaded = true ∧ s.modalState = ModalState.LOADED
     then zoomImg.getD emptyAttrs else emptyAttrs)

/-- A representative LOADED state: the state reached from `initState` by
opening the zoom and letting the enlarging transition finish. -/
def loadedState (cfg : Config) : BaseState :=
  (run cfg (initState cfg) [Event.setIsZoomed true, Event.transitionEnd]).1

/-- GeometryBox {width, height, left, top} in CSS pixels, exact rationals. -/
structure GeometryBox where
  width : ℚ
  height : ℚ
  left : ℚ
  top : ℚ
deriving DecidableEq, Repr

/-- Modelled from the spec: the expanded-mode geometry of `getStyleModalImg`
(`computeBox(target, expanded, margin)`, spec §4.2), whose implementation
lives in `src/source/utils.ts`, a file absent from the sources.  Following
§4.2, the box is the largest rectangle preserving the target's aspect ratio
that fits within the viewport minus the margin on each side, centered, with
its scale capped so it never exceeds the natural resolution of the active
asset, and with all dimensions non-negative (degenerate targets give a
zero-size box). -/
def computeExpandedBox (tW tH aW aH vW vH m : ℚ) : GeometryBox :=
  let availW := vW - 2 * m
  let availH := vH - 2 * m
  let fitScale := min (availW / tW) (availH / tH)
  let capScale := min (aW / tW) (aH / tH)
  let scale := max (min fitScale capScale) 0
  { width := tW * scale
    height := tH * scale
    left := m + (availW - tW * scale) / 2
    top := m + (availH - tH * scale) / 2 }

-- ===========================================================================
-- Helper lemmas
-- ===========================================================================

theorem applyTE_flag (s : BaseState) (p : PendingTE) :
    (applyTE s p).isZoomImgLoaded = s.isZoomImgLoaded := by
  cases s
  cases p <;> rfl

theorem foldlTE_flag (l : List PendingTE) (s : BaseState) :
    (List.foldl applyTE s l).isZoomImgLoaded = s.isZoomImgLoaded := by
  induction l generalizing s with
  | nil => rfl
  | cons p t ih => simp [List.foldl, ih, applyTE_flag]

theorem step_cycle (cfg : Config) (s : BaseState) (e : Event)
    (hp : pendingOK s.modalState s.pending = true)
    (hd : disciplinedEvent s e = true) :
    ((step cfg s e).1.modalState = s.modalState
      ∨ isCycleEdge s.modalState (step cfg s e).1.modalState = true)
    ∧ pendingOK (step cfg s e).1.modalState (step cfg s e).1.pending = true := by
  obtain ⟨ms, fl, fu, iz, pz, pend, sc, rz, cl, dlg, pdec, mt⟩ := s
  simp only at hp hd ⊢
  cases e with
  | setIsZoomed b =>
      simp only [disciplinedEvent] at hd
      simp only [step, zoomEffect]
      rcases hA : zoomEffectAction pz b with _ | _ | _ <;> simp only [hA] at hd ⊢
      · have hms : ms = ModalState.UNLOADED := of_decide_eq_true hd
        subst hms
        have hpend : pend = [] := by
          rcases of_decide_eq_true (by simpa only [pendingOK] using hp) with h | ⟨h1, _⟩ | ⟨h1, _⟩
          · exact h
          · exact absurd h1 (by simp)
          · exact absurd h1 (by simp)
        subst hpend
        refine ⟨Or.inr rfl, ?_⟩
        by_cases hc : cfg.modalImgRefPresent = true <;>
          simp [zoom, loadZoomImg, pendingOK, hc]
      · have hms : ms = ModalState.LOADED := of_decide_eq_true hd
        subst hms
        have hpend : pend = [] := by
          rcases of_decide_eq_true (by simpa only [pendingOK] using hp) with h | ⟨h1, _⟩ | ⟨h1, _⟩
          · exact h
          · exact absurd h1 (by simp)
          · exact absurd h1 (by simp)
        subst hpend
        refine ⟨Or.inr rfl, ?_⟩
        by_cases hc : cfg.modalImgRefPresent = true <;> simp [unzoom, pendingOK, hc]
      · exact ⟨Or.inl (by trivial), hp⟩
  | transitionEnd =>
      rcases of_decide_eq_true (by simpa only [pendingOK] using hp) with h | ⟨h1, h2⟩ | ⟨h1, h2⟩
      · subst h
        exact ⟨Or.inl rfl, rfl⟩
      · subst h1
        subst h2
        exact ⟨Or.inr rfl, rfl⟩
      · subst h1
        subst h2
        exact ⟨Or.inr rfl, rfl⟩
  | scroll =>
      simp only [step, handleScroll]
      split <;> exact ⟨Or.inl rfl, hp⟩
  | resize =>
      simp only [step, handleResize]
      split <;> exact ⟨Or.inl rfl, hp⟩
  | clickTarget =>
      simp only [step]
      split <;> exact ⟨Or.inl rfl, hp⟩
  | clickZoomBtn => exact ⟨Or.inl rfl, hp⟩
  | clickUnzoomBtn => exact ⟨Or.inl rfl, hp⟩
  | clickOverlay => exact ⟨Or.inl rfl, hp⟩
  | dialogKey e => exact ⟨Or.inl rfl, hp⟩
  | decodeResolved =>
      simp only [step]
      split <;> exact ⟨Or.inl rfl, hp⟩
  | unmount => exact ⟨Or.inl rfl, hp⟩

theorem run_cycle_aux (cfg : Config) (es : List Event) (s : BaseState)
    (hp : pendingOK s.modalState s.pending = true)
    (hd : disciplinedFrom cfg s es = true) :
    cycleRespecting ((states cfg s es).map BaseState.modalState) = true := by
  induction es generalizing s with
  | nil => rfl
  | cons e t ih =>
      simp only [disciplinedFrom, Bool.and_eq_true] at hd
      obtain ⟨hd1, hd2⟩ := hd
      have h1 := step_cycle cfg s e hp hd1
      have h2 := ih (step cfg s e).1 h1.2 hd2
      simp only [states, statesFrom, List.map] at h2 ⊢
      rw [cycleRespecting, Bool.and_eq_true]
      refine ⟨?_, h2⟩
      rcases h1.1 with h | h
      · simp [h]
      · simp [h]

-- ===========================================================================
-- C1
-- ===========================================================================

/-- C1 counterexample: toggling the zoom request true and then false again
before the enlarging transition finishes produces the direct
Loading→Unloading transition, which the claim says never occurs. -/
theorem C1_reversal_breaks_cycle :
    ((states (Config.mk true true true false) (initState (Config.mk true true true false))
        [Event.setIsZoomed true, Event.setIsZoomed false]).map BaseState.modalState
      = [ModalState.UNLOADED, ModalState.LOADING, ModalState.UNLOADING])
    ∧ isCycleEdge ModalState.LOADING ModalState.UNLOADING = false := by
  decide

/-- C1 amended: in every reversal-free run — the toggle requests zoom only
from Unloaded and unzoom only from Loaded, so neither transient state is
interrupted — all state changes follow the cycle
Unloaded→Loading→Loaded→Unloading→Unloaded: every adjacent pair of states of
the run is either unchanged or one of the four cycle edges.  (With a
reversal, the code does take a direct Loading→Unloading or Unloading→Loading
edge, the edge case §4.4 documents.) -/
theorem C1_cycle_when_disciplined (cfg : Config) (es : List Event)
    (hd : disciplinedFrom cfg (initState cfg) es = true) :
    cycleRespecting ((states cfg (initState cfg) es).map BaseState.modalState) = true := by
  exact run_cycle_aux cfg es (initState cfg) rfl hd

/-- C1 witness: a complete reversal-free zoom session satisfies the
discipline and respects the cycle. -/
theorem C1_cycle_when_disciplined_witness :
    (disciplinedFrom (Config.mk true true true false) (initState (Config.mk true true true false))
        [Event.setIsZoomed true, Event.transitionEnd, Event.setIsZoomed false,
          Event.transitionEnd] = true)
    ∧ cycleRespecting
        (((states (Config.mk true true true false) (initState (Config.mk true true true false))
          [Event.setIsZoomed true, Event.transitionEnd, Event.setIsZoomed false,
            Event.transitionEnd]).map BaseState.modalState)) = true := by
  exact ⟨by decide, C1_cycle_when_disciplined (Config.mk true true true false)
    [Event.setIsZoomed true, Event.transitionEnd, Event.setIsZoomed false,
      Event.transitionEnd] (by decide)⟩

-- ===========================================================================
-- C3
-- ===========================================================================

/-- C3 counterexample: after a full zoom session whose replacement decode
resolved, the Unloading→Unloaded transition completes with the readiness flag
still true — it is not reset to not-ready when the unzoom completes. -/
theorem C3_ready_not_reset :
    ((run (Config.mk true true true true) (initState (Config.mk true true true true))
        [Event.setIsZoomed true, Event.transitionEnd, Event.decodeResolved,
          Event.setIsZoomed false, Event.transitionEnd]).1.modalState
      = ModalState.UNLOADED)
    ∧ ((run (Config.mk true true true true) (initState (Config.mk true true true true))
        [Event.setIsZoomed true, Event.transitionEnd, Event.decodeResolved,
          Event.setIsZoomed false, Event.transitionEnd]).1.isZoomImgLoaded = true) := by
  decide

/-- C3 amended: the readiness flag is monotone — no step of the component
ever resets it (in particular the unzoom-completion step does not), and the
only event that can set it is the resolution of a replacement decode; hence
after a first successful decode every later zoom session starts with the
flag already true. -/
theorem C3_ready_monotone (cfg : Config) (s : BaseState) (e : Event) :
    (s.isZoomImgLoaded = true → (step cfg s e).1.isZoomImgLoaded = true)
    ∧ ((step cfg s e).1.isZoomImgLoaded = true →
        s.isZoomImgLoaded = true ∨ e = Event.decodeResolved) := by
  obtain ⟨ms, fl, fu, iz, pz, pend, sc, rz, cl, dlg, pdec, mt⟩ := s
  cases e with
  | setIsZoomed b =>
      simp only [step, zoomEffect]
      rcases hA : zoomEffectAction pz b with _ | _ | _ <;>
        simp [hA, zoom, unzoom, loadZoomImg] <;> split_ifs <;> simp
  | transitionEnd =>
      simp only [step, runPending, foldlTE_flag]
      simp
  | scroll =>
      simp only [step]
      split <;> simp [handleScroll]
  | resize =>
      simp only [step]
      split <;> simp [handleResize]
  | clickTarget =>
      simp only [step]
      split <;> simp
  | clickZoomBtn => exact ⟨fun h => h, fun h => Or.inl h⟩
  | clickUnzoomBtn => exact ⟨fun h => h, fun h => Or.inl h⟩
  | clickOverlay => exact ⟨fun h => h, fun h => Or.inl h⟩
  | dialogKey e => exact ⟨fun h => h, fun h => Or.inl h⟩
  | decodeResolved =>
      simp only [step]
      split_ifs <;> simp
  | unmount => constructor <;> (intro h; simpa [step] using h)

/-- C3 witness: instantiating the monotonicity theorem at a concrete loaded
state and the unzoom-completion (`transitionend`) event. -/
theorem C3_ready_monotone_witness :
    ((step (Config.mk true true true true)
        (BaseState.mk ModalState.UNLOADING true 0 false (some false)
          [PendingTE.unzoomDone] true true true true 0 true)
        Event.transitionEnd).1.isZoomImgLoaded = true) := by
  exact (C3_ready_monotone (Config.mk true true true true)
    (BaseState.mk ModalState.UNLOADING true 0 false (some false)
      [PendingTE.unzoomDone] true true true true 0 true)
    Event.transitionEnd).1 rfl

-- ===========================================================================
-- C2
-- ===========================================================================

/-- C2: the listener pairing holds when `scrollableEl` is the window (first
conjunct: a full open/close cycle followed by teardown leaves no listener),
but teardown with a non-window `scrollableEl` while Loaded leaves the scroll
listener attached to `scrollableEl` (the cleanup effect removes it from
`window` instead), contradicting the leak-freedom claim. -/
theorem C2_unmount_scroll_leak :
    ((run (Config.mk true true true false) (initState (Config.mk true true true false))
        [Event.setIsZoomed true, Event.transitionEnd, Event.unmount]).1.scrollListenerAttached
      = false)
    ∧ ((run (Config.mk true true false false) (initState (Config.mk true true false false))
        [Event.setIsZoomed true, Event.transitionEnd, Event.unmount]).1.mounted = false)
    ∧ ((run (Config.mk true true false false) (initState (Config.mk true true false false))
        [Event.setIsZoomed true, Event.transitionEnd, Event.unmount]).1.scrollListenerAttached
      = true) := by
  decide

-- ===========================================================================
-- C4
-- ===========================================================================

/-- C4 counterexample: with no resolved target, activating the zoom button
still reports `true` through `onZoomChange` (so the open request does invoke
a callback), and if the owner then sets the toggle, the lifecycle leaves
Unloaded for Loading — the zoom operations are not no-ops. -/
theorem C4_open_request_fires_callback :
    ((step (Config.mk false false true false) (initState (Config.mk false false true false))
        Event.clickZoomBtn).2 = [true])
    ∧ ((step (Config.mk false false true false) (initState (Config.mk false false true false))
        Event.clickZoomBtn).1.modalState = ModalState.UNLOADED)
    ∧ ((step (Config.mk false false true false) (initState (Config.mk false false true false))
        (Event.setIsZoomed true)).1.modalState = ModalState.LOADING) := by
  decide

/-- C4 amended: with no resolved target no click listener is attached, so a
click on the content region is a complete no-op (state unchanged, no
callback, nothing thrown); the zoom button's open request leaves the
lifecycle state itself unchanged but still invokes `onZoomChange(true)`. -/
theorem C4_missing_target_behavior (cfg : Config) (s : BaseState)
    (himg : cfg.imgElPresent = false) (hcl : s.clickListenerAttached = false) :
    step cfg s Event.clickTarget = (s, [])
    ∧ (step cfg s Event.clickZoomBtn).1 = s
    ∧ (step cfg s Event.clickZoomBtn).2 = [true] := by
  simp [step, hcl, handleOpen]

/-- C4 witness: the amended behavior at the initial state of an instance with
no resolved target. -/
theorem C4_missing_target_behavior_witness :
    step (Config.mk false false true false) (initState (Config.mk false false true false))
      Event.clickTarget
      = (initState (Config.mk false false true false), [])
    ∧ (step (Config.mk false false true false) (initState (Config.mk false false true false))
        Event.clickZoomBtn).2 = [true] := by
  refine ⟨(C4_missing_target_behavior _ _ rfl rfl).1,
    (C4_missing_target_behavior _ _ rfl rfl).2.2⟩

-- ===========================================================================
-- C6
-- ===========================================================================

/-- C6: a keydown on the dialog carrying the Escape key while the state is
Loaded produces exactly the step of the explicit close action (the unzoom
button, and equally the overlay click): the same resulting state and the same
single `onZoomChange(false)` report; and the handler prevents the native
dialog dismissal so the animated close runs instead. -/
theorem C6_escape_equals_close (cfg : Config) (s : BaseState) (e : KeyEvt)
    (hms : s.modalState = ModalState.LOADED)
    (hk : e.key = "Escape" ∨ e.keyCode = 27) :
    step cfg s (Event.dialogKey e) = step cfg s Event.clickUnzoomBtn
    ∧ step cfg s (Event.dialogKey e) = step cfg s Event.clickOverlay
    ∧ (step cfg s (Event.dialogKey e)).2 = [false]
    ∧ (handleDialogKeyDown e).1 = true := by
  simp [step, handleDialogKeyDown, if_pos hk, handleClose]

/-- C6 witness: the equivalence at a concrete LOADED state and the concrete
Escape key event. -/
theorem C6_escape_equals_close_witness :
    step (Config.mk true true true false) (loadedState (Config.mk true true true false))
        (Event.dialogKey (KeyEvt.mk "Escape" 27))
      = step (Config.mk true true true false) (loadedState (Config.mk true true true false))
          Event.clickUnzoomBtn := by
  exact (C6_escape_equals_close (Config.mk true true true false)
    (loadedState (Config.mk true true true false)) (KeyEvt.mk "Escape" 27)
    (by decide) (Or.inl rfl)).1

-- ===========================================================================
-- C7
-- ===========================================================================

/-- C7: for every lifecycle state, the content is visible exactly when the
state is Unloaded and hidden in the three other states, and the overlay is
hidden exactly in {Unloaded, Unloading} and visible exactly in
{Loading, Loaded}. -/
theorem C7_visibility_map :
    ∀ ms : ModalState,
      (styleContentVisibility ms = "visible" ↔ ms = ModalState.UNLOADED)
      ∧ (styleContentVisibility ms = "hidden"
          ↔ (ms = ModalState.LOADING ∨ ms = ModalState.LOADED ∨ ms = ModalState.UNLOADING))
      ∧ (dataOverlayState ms = "hidden"
          ↔ (ms = ModalState.UNLOADED ∨ ms = ModalState.UNLOADING))
      ∧ (dataOverlayState ms = "visible"
          ↔ (ms = ModalState.LOADING ∨ ms = ModalState.LOADED)) := by
  intro ms
  cases ms <;> decide

-- ===========================================================================
-- C9
-- ===========================================================================

/-- C9: between consecutive renders (a previous toggle value exists), the
zoom action — enter Loading, open the modal dialog, start the replacement
load, register the transition-end listener — runs exactly on a false→true
edge of `isZoomed`; the unzoom action runs exactly on a true→false edge and
runs no zoom side effect; and when the toggle is unchanged neither action
runs, so the lifecycle fields are untouched. -/
theorem C9_edge_triggered (cfg : Config) (s : BaseState) (p b : Bool)
    (hp : s.prevIsZoomed = some p) :
    (p = false → b = true →
      ((step cfg s (Event.setIsZoomed b)).1.modalState = ModalState.LOADING
        ∧ (step cfg s (Event.setIsZoomed b)).1.dialogOpen = true
        ∧ (step cfg s (Event.setIsZoomed b)).1.pendingDecodes
            = s.pendingDecodes + (if cfg.hasZoomImgSrc then 1 else 0)
        ∧ (step cfg s (Event.setIsZoomed b)).1.pending
            = s.pending ++ (if cfg.modalImgRefPresent then [PendingTE.zoomDone] else [])))
    ∧ (p = true → b = false →
      ((step cfg s (Event.setIsZoomed b)).1.modalState = ModalState.UNLOADING
        ∧ (step cfg s (Event.setIsZoomed b)).1.dialogOpen = s.dialogOpen
        ∧ (step cfg s (Event.setIsZoomed b)).1.pendingDecodes = s.pendingDecodes))
    ∧ (p = b →
      ((step cfg s (Event.setIsZoomed b)).1.modalState = s.modalState
        ∧ (step cfg s (Event.setIsZoomed b)).1.dialogOpen = s.dialogOpen
        ∧ (step cfg s (Event.setIsZoomed b)).1.pendingDecodes = s.pendingDecodes
        ∧ (step cfg s (Event.setIsZoomed b)).1.pending = s.pending
        ∧ (step cfg s (Event.setIsZoomed b)).1.scrollListenerAttached
            = s.scrollListenerAttached)) := by
  obtain ⟨ms, fl, fu, iz, pz, pend, sc, rz, cl, dlg, pdec, mt⟩ := s
  simp only at hp
  subst hp
  cases p <;> cases b <;>
    simp [step, zoomEffect, zoomEffectAction, zoom, unzoom, loadZoomImg] <;>
    split_ifs <;> simp

/-- C9 witness: a false→true edge at the initial-style state performs the
zoom action, and a repeated render with the toggle still true performs
nothing. -/
theorem C9_edge_triggered_witness :
    ((step (Config.mk true true true true)
        (BaseState.mk ModalState.UNLOADED false 0 false (some false) [] false false true false 0 true)
        (Event.setIsZoomed true)).1.modalState = ModalState.LOADING)
    ∧ ((step (Config.mk true true true true)
        (BaseState.mk ModalState.LOADED false 0 true (some true) [] true true true true 0 true)
        (Event.setIsZoomed true)).1.modalState = ModalState.LOADED) := by
  refine ⟨((C9_edge_triggered (Config.mk true true true true)
      (BaseState.mk ModalState.UNLOADED false 0 false (some false) [] false false true false 0 true)
      false true rfl).1 rfl rfl).1, ?_⟩
  exact ((C9_edge_triggered (Config.mk true true true true)
      (BaseState.mk ModalState.LOADED false 0 true (some true) [] true true true true 0 true)
      true true rfl).2.2 rfl).1

-- ===========================================================================
-- C5
-- ===========================================================================

/-- C5: a scroll event delivered through the listener on `scrollableEl` while
the state is Loaded reports `false` through `onZoomChange` exactly once and
does not itself change the lifecycle state (scroll is a close request, never
a reposition); when the external owner echoes the report by setting the
toggle to false, the Loaded→Unloading transition is performed. -/
theorem C5_scroll_closes_once (cfg : Config) (s : BaseState)
    (hms : s.modalState = ModalState.LOADED)
    (hsc : s.scrollListenerAttached = true)
    (hp : s.prevIsZoomed = some true) :
    (step cfg s Event.scroll).2 = [false]
    ∧ (step cfg s Event.scroll).1.modalState = ModalState.LOADED
    ∧ (step cfg (step cfg s Event.scroll).1 (Event.setIsZoomed false)).1.modalState
        = ModalState.UNLOADING := by
  obtain ⟨ms, fl, fu, iz, pz, pend, sc, rz, cl, dlg, pdec, mt⟩ := s
  simp only at hms hsc hp
  subst hms hsc hp
  simp [step, handleScroll, handleClose, zoomEffect, zoomEffectAction, unzoom]

/-- C5 witness: the scroll-close behavior at the concrete LOADED state
reached by opening the zoom. -/
theorem C5_scroll_closes_once_witness :
    (step (Config.mk true true true false) (loadedState (Config.mk true true true false))
        Event.scroll).2 = [false]
    ∧ (step (Config.mk true true true false)
        (step (Config.mk true true true false) (loadedState (Config.mk true true true false))
          Event.scroll).1
        (Event.setIsZoomed false)).1.modalState = ModalState.UNLOADING := by
  refine ⟨(C5_scroll_closes_once (Config.mk true true true false)
      (loadedState (Config.mk true true true false)) (by decide) (by decide) (by decide)).1,
    (C5_scroll_closes_once (Config.mk true true true false)
      (loadedState (Config.mk true true true false)) (by decide) (by decide) (by decide)).2.2⟩

-- ===========================================================================
-- C10
-- ===========================================================================

/-- C10: the rendered modal image carries the replacement (`zoomImg`)
attributes only when the readiness flag is true and the state is Loaded — a
fully specified replacement then overrides src, srcSet and sizes — and in
every other combination the element renders exactly the original target's
source attributes. -/
theorem C10_zoom_attrs_applied (orig : ImgAttrs) (a b c : String)
    (zoomImg : Option ImgAttrs) (s : BaseState) :
    (¬(s.isZoomImgLoaded = true ∧ s.modalState = ModalState.LOADED) →
      modalImgAttrs orig zoomImg s = orig)
    ∧ (s.isZoomImgLoaded = true → s.modalState = ModalState.LOADED →
      modalImgAttrs orig (some (ImgAttrs.mk (some a) (some b) (some c))) s
        = ImgAttrs.mk (some a) (some b) (some c)) := by
  constructor
  · intro h
    simp [modalImgAttrs, if_neg h, spreadOver, pickAttr, emptyAttrs]
  · intro h1 h2
    simp [modalImgAttrs, if_pos (And.intro h1 h2), spreadOver, pickAttr]

/-- C10 witness: at the not-yet-loaded initial state the original attributes
render; at a concrete loaded-and-ready state the replacement attributes
render. -/
theorem C10_zoom_attrs_applied_witness :
    modalImgAttrs (ImgAttrs.mk (some "o") none none)
        (some (ImgAttrs.mk (some "a") (some "b") (some "c")))
        (initState (Config.mk true true true true))
      = ImgAttrs.mk (some "o") none none
    ∧ modalImgAttrs (ImgAttrs.mk (some "o") none none)
        (some (ImgAttrs.mk (some "a") (some "b") (some "c")))
        (BaseState.mk ModalState.LOADED true 0 true (some true) [] true true true true 0 true)
      = ImgAttrs.mk (some "a") (some "b") (some "c") := by
  exact ⟨(C10_zoom_attrs_applied (ImgAttrs.mk (some "o") none none) "a" "b" "c"
      (some (ImgAttrs.mk (some "a") (some "b") (some "c")))
      (initState (Config.mk true true true true))).1 (by decide),
    (C10_zoom_attrs_applied (ImgAttrs.mk (some "o") none none) "a" "b" "c"
      (some (ImgAttrs.mk (some "a") (some "b") (some "c")))
      (BaseState.mk ModalState.LOADED true 0 true (some true) [] true true true true 0 true)).2
      rfl rfl⟩

-- ===========================================================================
-- C8
-- ===========================================================================

/-- C8: for every margin ≥ 0, every viewport, and non-negative target and
active-asset natural dimensions, the expanded box is never wider or taller
than the active asset's natural resolution, its dimensions are non-negative,
and it preserves the target's aspect ratio exactly (width·tH = height·tW);
and in the concrete scenario — no replacement asset, so the active asset is
the 200×150 target, viewport 2000×2000, margin 0 — the box is exactly
200×150, never upscaled beyond the natural size. -/
theorem C8_expanded_box_bounds :
    (∀ tW tH aW aH vW vH m : ℚ, 0 ≤ tW → 0 ≤ tH → 0 ≤ aW → 0 ≤ aH → 0 ≤ m →
      (computeExpandedBox tW tH aW aH vW vH m).width ≤ aW
      ∧ (computeExpandedBox tW tH aW aH vW vH m).height ≤ aH
      ∧ 0 ≤ (computeExpandedBox tW tH aW aH vW vH m).width
      ∧ 0 ≤ (computeExpandedBox tW tH aW aH vW vH m).height
      ∧ (computeExpandedBox tW tH aW aH vW vH m).width * tH
          = (computeExpandedBox tW tH aW aH vW vH m).height * tW)
    ∧ (computeExpandedBox 200 150 200 150 2000 2000 0).width = 200
    ∧ (computeExpandedBox 200 150 200 150 2000 2000 0).height = 150 := by
  refine ⟨?_, ?_, ?_⟩
  · intro tW tH aW aH vW vH m htW htH haW haH hm
    simp only [computeExpandedBox]
    set scale := max (min (min ((vW - 2 * m) / tW) ((vH - 2 * m) / tH))
      (min (aW / tW) (aH / tH))) 0 with hscale
    have h0 : (0 : ℚ) ≤ scale := le_max_right _ 0
    have hwnn : (0 : ℚ) ≤ tW * scale := mul_nonneg htW h0
    have hhnn : (0 : ℚ) ≤ tH * scale := mul_nonneg htH h0
    have hwle : tW * scale ≤ aW := by
      rcases eq_or_lt_of_le htW with h | h
      · rw [← h, zero_mul]
        exact haW
      · have hcap : min (min ((vW - 2 * m) / tW) ((vH - 2 * m) / tH))
            (min (aW / tW) (aH / tH)) ≤ aW / tW :=
          le_trans (min_le_right _ _) (min_le_left _ _)
        have hq : (0 : ℚ) ≤ aW / tW := div_nonneg haW (le_of_lt h)
        have hs : scale ≤ aW / tW := max_le hcap hq
        calc tW * scale ≤ tW * (aW / tW) := mul_le_mul_of_nonneg_left hs (le_of_lt h)
          _ = aW := by rw [mul_comm, div_mul_cancel₀ _ (ne_of_gt h)]
    have hhle : tH * scale ≤ aH := by
      rcases eq_or_lt_of_le htH with h | h
      · rw [← h, zero_mul]
        exact haH
      · have hcap : min (min ((vW - 2 * m) / tW) ((vH - 2 * m) / tH))
            (min (aW / tW) (aH / tH)) ≤ aH / tH :=
          le_trans (min_le_right _ _) (min_le_right _ _)
        have hq : (0 : ℚ) ≤ aH / tH := div_nonneg haH (le_of_lt h)
        have hs : scale ≤ aH / tH := max_le hcap hq
        calc tH * scale ≤ tH * (aH / tH) := mul_le_mul_of_nonneg_left hs (le_of_lt h)
          _ = aH := by rw [mul_comm, div_mul_cancel₀ _ (ne_of_gt h)]
    exact ⟨hwle, hhle, hwnn, hhnn, by ring⟩
  · norm_num [computeExpandedBox, min_def, max_def]
  · norm_num [computeExpandedBox, min_def, max_def]

/-- C8 witness: the bounds, non-negativity and exact aspect-ratio facts at
the spec's 400×300 target with a 1600×1200 replacement asset, viewport
1000×800, margin 20. -/
theorem C8_expanded_box_bounds_witness :
    (computeExpandedBox 400 300 1600 1200 1000 800 20).width ≤ 1600
    ∧ (computeExpandedBox 400 300 1600 1200 1000 800 20).height ≤ 1200
    ∧ 0 ≤ (computeExpandedBox 400 300 1600 1200 1000 800 20).width
    ∧ 0 ≤ (computeExpandedBox 400 300 1600 1200 1000 800 20).height
    ∧ (computeExpandedBox 400 300 1600 1200 1000 800 20).width * 300
        = (computeExpandedBox 400 300 1600 1200 1000 800 20).height * 400 := by
  exact C8_expanded_box_bounds.1 400 300 1600 1200 1000 800 20 (by norm_num)
    (by norm_num) (by norm_num) (by norm_num) (by norm_num)

end RMIZ
